import Mathlib

/-
Verification development for the auxiliary-objective training head in
src/robustqa/model.py (class AuxMLMModel).  Token-id grids are modelled as
functions from row index and column index to the integer stored there; only
entries below the stated batch and sequence bounds are meaningful.  Every
random tensor the code draws (geometric span lengths, uniform start positions,
Bernoulli policy trials, random replacement tokens) is passed in explicitly,
so each theorem quantifies over every possible random draw.  Python exceptions
are modelled with Except / Option results.
-/

namespace RobustQA

/-- Sentinel used both as the default mask token and as the ignore label
(model.py line 14). -/
def MASK_TOKEN : ℤ := -100

/-- Padding token id (model.py line 15). -/
def PAD_TOKEN : ℤ := 0

/-- Begin-sequence marker id (model.py line 16). -/
def CLS_TOKEN : ℤ := 101

/-- End-sequence marker id (model.py line 17). -/
def SEP_TOKEN : ℤ := 102

/-- Default masking probability, set in the constructor (line 42). -/
def mlm_probability : ℚ := 15 / 100

/-- Span-length parameter of the geometric distribution (line 43). -/
def len_probability : ℚ := 1 / 5

/-- Length of the largest acceptable span, per the constructor comment
(line 44). -/
def max_spanlen : ℕ := 2

/-- Protected-token test: positions whose token id is CLS, SEP or PAD must
never be masked (lines 86-90 and 154-158). -/
def specialToken (t : ℤ) : Bool := t == CLS_TOKEN || t == SEP_TOKEN || t == PAD_TOKEN

/-- A Bernoulli trial with success probability p, driven by a uniform draw u
taken from the interval from 0 inclusive to 1 exclusive: the trial succeeds
exactly when u < p.  This models torch.bernoulli; in particular a zeroed
probability can never succeed. -/
def bern (u p : ℚ) : Bool := decide (u < p)

/-- Clamped geometric span length for one grid cell: the geometric draw (a
natural number) is clamped to the interval from 0 to max_spanlen and then
incremented by one (line 95).  The resulting value therefore ranges over 1 up
to max_spanlen + 1. -/
def ldist_trunc (geo : ℕ → ℕ) (j : ℕ) : ℕ := min (geo j) max_spanlen + 1

/-- Cumulative sum of clamped span lengths along the sequence axis, inclusive
of cell j (line 99). -/
def cumul (geo : ℕ → ℕ) (j : ℕ) : ℕ := ∑ i in Finset.range (j + 1), ldist_trunc geo i

/-- Target number of modified tokens: the ceiling of sent_len times
mlm_probability (line 98). -/
def nmask (n : ℕ) : ℕ := (⌈(n : ℚ) * mlm_probability⌉).toNat

/-- Budget threshold nmask + 1 / len_probability used by the allocator
(line 100). -/
def budget (n : ℕ) : ℚ := (nmask n : ℚ) + 1 / len_probability

/-- Candidate length retained by the budget allocator: kept when the
cumulative sum up to and including this cell is strictly below the budget,
zeroed otherwise (line 100). -/
def keptLen (geo : ℕ → ℕ) (n j : ℕ) : ℕ :=
  if (cumul geo j : ℚ) < budget n then ldist_trunc geo j else 0

/-- Number of retained spans in one sequence: the count of nonzero retained
lengths (line 101). -/
def nspans (geo : ℕ → ℕ) (n : ℕ) : ℕ :=
  ((Finset.range n).filter fun j => keptLen geo n j ≠ 0).card

/-- Start index of the span in slot s: the ceiling of a uniform draw scaled by
the sequence length, forced to 0 for zero-length slots (lines 106-107). -/
def start_idx (geo : ℕ → ℕ) (sr : ℕ → ℚ) (n s : ℕ) : ℕ :=
  if 0 < keptLen geo n s then (⌈sr s * (n : ℚ)⌉).toNat else 0

/-- End index of the span in slot s: start plus length, clamped to the
sequence length (lines 108-109). -/
def end_idx (geo : ℕ → ℕ) (sr : ℕ → ℚ) (n s : ℕ) : ℕ :=
  min (start_idx geo sr n s + keptLen geo n s) n

/-- Policy draw: the span is rewritten with the mask token, probability 0.8
(line 111). -/
def masked_span (mb : ℕ → ℚ) (s : ℕ) : Bool := bern (mb s) (4 / 5)

/-- Policy draw: the span is rewritten with random tokens, probability 0.5
among spans not already chosen for masking (line 112). -/
def random_span (mb rb : ℕ → ℚ) (s : ℕ) : Bool := bern (rb s) (1 / 2) && !masked_span mb s

/-- Scatter index contributed at loop iteration i by slot s: the current
position start + i while it is still below the span end, otherwise the
sentinel 0 (line 121). -/
def token_index (geo : ℕ → ℕ) (sr : ℕ → ℚ) (n i s : ℕ) : ℕ :=
  if start_idx geo sr n s + i < end_idx geo sr n s then start_idx geo sr n s + i else 0

/-- Position p receives a scatter write for the span selector sel: some loop
iteration i and slot s computes scatter index token_index times the 0/1
selector equal to p.  The scattered value is always 1, and the grids start at
0, so a grid entry is 1 exactly when some write lands on it (lines 114-124).
Note that a slot whose selector is 0, or whose current position has run past
the span end, scatters index 0, so position 0 receives writes even from spans
that do not contain it. -/
def scatterHit (sel : ℕ → Bool) (geo : ℕ → ℕ) (sr : ℕ → ℚ) (n k p : ℕ) : Bool :=
  (List.range max_spanlen).any fun i =>
    (List.range k).any fun s =>
      token_index geo sr n i s * (if sel s then 1 else 0) == p

/-- Masked-index grid entry after the protected-token zeroing (lines 122, 127,
129). -/
def masked_index (row : ℕ → ℤ) (geo : ℕ → ℕ) (sr mb : ℕ → ℚ) (n k p : ℕ) : Bool :=
  scatterHit (masked_span mb) geo sr n k p && !specialToken (row p)

/-- Randomized-index grid entry after the protected-token zeroing (lines 123,
128, 130). -/
def random_index (row : ℕ → ℤ) (geo : ℕ → ℕ) (sr mb rb : ℕ → ℚ) (n k p : ℕ) : Bool :=
  scatterHit (random_span mb rb) geo sr n k p && !specialToken (row p)

/-- Label produced by span_mask at one position: labels start as a clone of
the input, then every position in neither index grid is overwritten with the
ignore sentinel -100 (lines 83 and 133). -/
def labelAt (row : ℕ → ℤ) (geo : ℕ → ℕ) (sr mb rb : ℕ → ℚ) (n k p : ℕ) : ℤ :=
  if masked_index row geo sr mb n k p || random_index row geo sr mb rb n k p then row p
  else -100

/-- Input token produced by span_mask at one position: the mask token on the
masked grid, then an independently drawn random token on the randomized grid
(written second, so it wins where the grids overlap), the original token
elsewhere (lines 134-136). -/
def inputAt (row : ℕ → ℤ) (geo : ℕ → ℕ) (sr mb rb : ℕ → ℚ) (words : ℕ → ℤ)
    (mask_token : ℤ) (n k p : ℕ) : ℤ :=
  if random_index row geo sr mb rb n k p then words p
  else if masked_index row geo sr mb n k p then mask_token
  else row p

/-- Random draws consumed by one span_mask call, indexed by row and then by
cell or slot: geometric length draws, uniform start draws, the two Bernoulli
policy draws, and the random replacement tokens. -/
structure Draws where
  geo : ℕ → ℕ → ℕ
  sr : ℕ → ℕ → ℚ
  mb : ℕ → ℕ → ℚ
  rb : ℕ → ℕ → ℚ
  words : ℕ → ℕ → ℤ

/-- Result of a masking call: the rewritten input grid and the label grid. -/
structure MaskOut where
  inputs : ℕ → ℕ → ℤ
  labels : ℕ → ℕ → ℤ

/-- Largest retained span count across the batch; the length tensor is
truncated to this many slot columns (line 102). -/
def max_nspans (geo : ℕ → ℕ → ℕ) (b n : ℕ) : ℕ :=
  (Finset.range b).sup fun r => nspans (geo r) n

/-- Error message raised when the vocabulary size was never configured
(lines 79-80 and 145-146).  Written as an append so that the presence of the
required setup-call name add_vocab_size inside the message is definitional. -/
def vocabErrorMessage : String :=
  "AuxMLMModel must have vocabulary size added via " ++ "add_vocab_size" ++
    "() before training occurs"

/-- Pure body of span_mask on a batch of b sequences of length n
(lines 82-138). -/
def span_mask_body (mask_token : ℤ) (inputs : ℕ → ℕ → ℤ) (d : Draws) (b n : ℕ) : MaskOut :=
  { inputs := fun r p =>
      inputAt (inputs r) (d.geo r) (d.sr r) (d.mb r) (d.rb r) (d.words r) mask_token n
        (max_nspans d.geo b n) p
    labels := fun r p =>
      labelAt (inputs r) (d.geo r) (d.sr r) (d.mb r) (d.rb r) n (max_nspans d.geo b n) p }

/-- span_mask (lines 78-138): raises when the vocabulary size is unset,
otherwise rewrites inputs and produces labels. -/
def span_mask (vocab_size : Option ℕ) (mask_token : ℤ) (inputs : ℕ → ℕ → ℤ)
    (d : Draws) (b n : ℕ) : Except String MaskOut :=
  if vocab_size = none then Except.error vocabErrorMessage
  else Except.ok (span_mask_body mask_token inputs d b n)

/-- Position p lies inside the span stored in slot s of the truncated length
tensor for some s below the slot bound k: the slot has nonzero retained length
and its start and end indices straddle p.  This is what it means for a
position to be covered by a selected span. -/
def covered (geo : ℕ → ℕ) (sr : ℕ → ℚ) (n k p : ℕ) : Bool :=
  (List.range k).any fun s =>
    decide (keptLen geo n s ≠ 0) && decide (start_idx geo sr n s ≤ p) &&
      decide (p < end_idx geo sr n s)

/-- Random draws consumed by one mlm_mask call: selection draws, mask-token
draws, random-token draws, and replacement tokens. -/
structure MlmDraws where
  sel : ℕ → ℕ → ℚ
  rep : ℕ → ℕ → ℚ
  rnd : ℕ → ℕ → ℚ
  words : ℕ → ℕ → ℤ

/-- Per-token selection probability for mlm_mask: mlm_probability everywhere,
zeroed on protected tokens (lines 152-160). -/
def mlmProb (t : ℤ) : ℚ := if specialToken t then 0 else mlm_probability

/-- Token selected for MLM supervision (line 161). -/
def mlmMasked (t : ℤ) (u : ℚ) : Bool := bern u (mlmProb t)

/-- Selected token replaced by the mask token, probability 0.8 (line 165). -/
def mlmReplaced (t : ℤ) (u v : ℚ) : Bool := bern v (4 / 5) && mlmMasked t u

/-- Selected token replaced by a random token, probability 0.5 among selected
tokens not already replaced (line 169). -/
def mlmRandom (t : ℤ) (u v w : ℚ) : Bool :=
  bern w (1 / 2) && mlmMasked t u && !mlmReplaced t u v

/-- Pure body of mlm_mask (lines 148-174). -/
def mlm_mask_body (mask_token : ℤ) (inputs : ℕ → ℕ → ℤ) (d : MlmDraws) : MaskOut :=
  { inputs := fun r p =>
      if mlmRandom (inputs r p) (d.sel r p) (d.rep r p) (d.rnd r p) then d.words r p
      else if mlmReplaced (inputs r p) (d.sel r p) (d.rep r p) then mask_token
      else inputs r p
    labels := fun r p =>
      if mlmMasked (inputs r p) (d.sel r p) then inputs r p else -100 }

/-- mlm_mask (lines 142-174): raises when the vocabulary size is unset,
otherwise applies per-token masking. -/
def mlm_mask (vocab_size : Option ℕ) (mask_token : ℤ) (inputs : ℕ → ℕ → ℤ)
    (d : MlmDraws) : Except String MaskOut :=
  if vocab_size = none then Except.error vocabErrorMessage
  else Except.ok (mlm_mask_body mask_token inputs d)

/-- Mutable configuration of AuxMLMModel relevant to the verified logic
(lines 48-51): vocabulary size, mask token, gamma cursor, gamma sequence. -/
structure ModelState where
  vocab_size : Option ℕ
  mask_token : ℤ
  gamma_idx : ℕ
  gammas : List ℚ

/-- State right after construction (lines 48-51; GAMMAS_INIT is the one-element
sequence holding 0.0, line 18). -/
def initState : ModelState :=
  { vocab_size := none, mask_token := MASK_TOKEN, gamma_idx := 0, gammas := [0] }

/-- set_gammas (lines 57-59): replaces the schedule and resets the cursor. -/
def set_gammas (st : ModelState) (gs : List ℚ) : ModelState :=
  { st with gammas := gs, gamma_idx := 0 }

/-- get_gamma (lines 61-62): a plain list access at the cursor, with no
clamping; none models the IndexError Python raises when the cursor is out of
range. -/
def get_gamma (st : ModelState) : Option ℚ := st.gammas.get? st.gamma_idx

/-- add_vocab_size (lines 73-75). -/
def add_vocab_size (st : ModelState) (v : ℕ) : ModelState := { st with vocab_size := some v }

/-- set_mask_token (lines 53-54). -/
def set_mask_token (st : ModelState) (t : ℤ) : ModelState := { st with mask_token := t }

/-- Gamma coefficient read inside forward (lines 260-264): the last entry when
the cursor has run past the end of the sequence, the entry at the cursor
otherwise; none models the IndexError on an empty schedule. -/
def gamma_current (st : ModelState) : Option ℚ :=
  if st.gammas.length - 1 < st.gamma_idx then st.gammas.getLast?
  else st.gammas.get? st.gamma_idx

/-- Cursor advance performed by forward when decay_gamma is set
(lines 266-267). -/
def advance_gamma (st : ModelState) : ModelState := { st with gamma_idx := st.gamma_idx + 1 }

/-- k-fold cursor advance. -/
def advanceN (st : ModelState) : ℕ → ModelState
  | 0 => st
  | k + 1 => advance_gamma (advanceN st k)

/-- Loss plumbing of forward (lines 202-277).  The encoder and the two heads
are external collaborators, so the scalar values their cross-entropy losses
would take are passed in as qaLossVal and mlmLossVal; everything the claims
speak about is reproduced exactly: the vocabulary check that span_mask
performs when mask_inputs is set, which losses exist (the QA loss only when
both gold positions are supplied, the MLM term only when masking was
requested, and 0 otherwise), the gamma clamp, the cursor update, and the total
loss that is prepended to the output tuple.  The first component of the
result models the prepended total_loss slot: Python prepends (total_loss,)
whenever total_loss is not None, which the option value mirrors. -/
def forward (st : ModelState) (hasStart hasEnd mask_inputs decay_gamma : Bool)
    (qaLossVal mlmLossVal : ℚ) : Except String (Option ℚ × ModelState) :=
  if mask_inputs ∧ st.vocab_size = none then Except.error vocabErrorMessage
  else
    let qa_loss : Option ℚ := if hasStart && hasEnd then some qaLossVal else none
    let mlm_loss : ℚ := if mask_inputs then mlmLossVal else 0
    match gamma_current st with
    | none => Except.error "IndexError: list index out of range"
    | some g =>
      let st2 := if decay_gamma then advance_gamma st else st
      let total : ℚ :=
        match qa_loss with
        | none => g * mlm_loss
        | some q => q + g * mlm_loss
      Except.ok (some total, st2)

/-- Concrete batch used by the concrete evaluations: one sequence of length 4
holding ordinary (unprotected) token ids 5, 6, 7, 8. -/
def exInputs : ℕ → ℕ → ℤ := fun _ p =>
  if p = 0 then 5 else if p = 1 then 6 else if p = 2 then 7 else 8

/-- Concrete random draws for the batch above: the first cell draws geometric
0 (span length 1) and the others draw 9 (clamped); the retained slots are a
length-1 span starting at position 2 and a length-3 span starting at position
4 (empty after end clamping); both slots draw the mask policy and neither
draws the random policy; random replacement tokens are all 999. -/
def exDraws : Draws :=
  { geo := fun _ j => if j = 0 then 0 else 9
    sr := fun _ s => if s = 0 then 3 / 8 else 7 / 8
    mb := fun _ _ => 0
    rb := fun _ _ => 9 / 10
    words := fun _ _ => 999 }

/-- Concrete all-protected batch: every position holds the CLS marker. -/
def exProtInputs : ℕ → ℕ → ℤ := fun _ _ => 101

/-- Concrete zero draws used with the all-protected batch. -/
def exZeroDraws : Draws :=
  { geo := fun _ _ => 0
    sr := fun _ _ => 0
    mb := fun _ _ => 0
    rb := fun _ _ => 0
    words := fun _ _ => 7 }

/-- Concrete all-padding batch for the mlm_mask claim. -/
def exPadInputs : ℕ → ℕ → ℤ := fun _ _ => 0

/-- Concrete draws for the mlm_mask claim. -/
def exMlmDraws : MlmDraws :=
  { sel := fun _ _ => 1 / 2
    rep := fun _ _ => 0
    rnd := fun _ _ => 0
    words := fun _ _ => 3 }

section

attribute [local semireducible] Rat.mul Rat.inv Rat.add Rat.sub Rat.ofScientific

/-- Every retained length is bounded by the corresponding candidate length. -/
theorem keptLen_le_ldist (geo : ℕ → ℕ) (n j : ℕ) : keptLen geo n j ≤ ldist_trunc geo j := by
  unfold keptLen
  split <;> simp

/-- The budget threshold evaluates to nmask + 5 at the default length
probability. -/
theorem budget_eq (n : ℕ) : budget n = (nmask n : ℚ) + 5 := by
  unfold budget len_probability
  norm_num

/-- Sum of retained lengths over any sequence prefix stays strictly below
nmask + 5: the allocator keeps a cell only when the inclusive cumulative sum
is below the threshold. -/
theorem sum_keptLen_lt (geo : ℕ → ℕ) (n m : ℕ) :
    ∑ j in Finset.range m, keptLen geo n j < nmask n + 5 := by
  induction m with
  | zero => simp
  | succ m ih =>
    rw [Finset.sum_range_succ]
    by_cases h : (cumul geo m : ℚ) < budget n
    · have hkept : keptLen geo n m = ldist_trunc geo m := by simp [keptLen, h]
      have hle : ∑ j in Finset.range m, keptLen geo n j ≤ ∑ j in Finset.range m, ldist_trunc geo j :=
        Finset.sum_le_sum fun j _ => keptLen_le_ldist geo n j
      have hcum : cumul geo m < nmask n + 5 := by
        rw [budget_eq] at h
        exact_mod_cast h
      have hc : cumul geo m = ∑ j in Finset.range m, ldist_trunc geo j + ldist_trunc geo m := by
        rw [cumul, Finset.sum_range_succ]
      omega
    · have hkept : keptLen geo n m = 0 := by simp [keptLen, h]
      omega

/-- C8: for every sequence and every random draw, the sum of span lengths
retained by the budget allocator (before column truncation) does not exceed
ceil(seq_len * mlm_probability) + 1 / len_probability by more than one span's
worth (max_spanlen).  In fact the code keeps the sum strictly below the
threshold itself, so the claimed soft bound holds a fortiori. -/
theorem C8_budget_soft_bound (geo : ℕ → ℕ) (n : ℕ) :
    ((∑ j in Finset.range n, keptLen geo n j : ℕ) : ℚ)
      ≤ (nmask n : ℚ) + 1 / len_probability + (max_spanlen : ℚ) := by
  have h := sum_keptLen_lt geo n n
  have h' : ((∑ j in Finset.range n, keptLen geo n j : ℕ) : ℚ) < (nmask n : ℚ) + 5 := by
    exact_mod_cast h
  have h5 : (1 : ℚ) / len_probability = 5 := by norm_num [len_probability]
  have hm : (max_spanlen : ℚ) = 2 := by norm_num [max_spanlen]
  rw [h5, hm]
  linarith

/-- C4 (code evaluation at the failing input): with the default
max_spanlen = 2, a geometric draw of 2 produces the candidate span length
min 2 2 + 1 = 3, which exceeds max_spanlen.  The code clamps the draw to the
interval up to max_spanlen and then adds one, so candidate lengths range over
1 to max_spanlen + 1 rather than the documented 1 to max_spanlen. -/
theorem C4_span_length_code_eval :
    ldist_trunc (fun _ => 2) 0 = 3 ∧ ¬ ldist_trunc (fun _ => 2) 0 ≤ max_spanlen := by
  decide

/-- Span end indices are always clamped to the sequence length (the second,
correct half of claim C4). -/
theorem end_idx_le (geo : ℕ → ℕ) (sr : ℕ → ℚ) (n s : ℕ) : end_idx geo sr n s ≤ n :=
  min_le_right _ _

/-- Advancing the cursor k times leaves the schedule unchanged and moves the
cursor forward by exactly k. -/
theorem advanceN_spec (st : ModelState) (k : ℕ) :
    (advanceN st k).gammas = st.gammas ∧ (advanceN st k).gamma_idx = st.gamma_idx + k := by
  induction k with
  | zero => simp [advanceN]
  | succ k ih =>
    refine ⟨by simp [advanceN, advance_gamma, ih.1], ?_⟩
    simp only [advanceN, advance_gamma, ih.2]
    omega

/-- C5 counterexample: after set_gammas with the schedule 0.1, 0.3, 0.5 and
three cursor advances, get_gamma is a plain list access at index 3 and raises
IndexError (modelled by none) instead of returning the clamped value 0.5. -/
theorem C5_get_gamma_counterexample :
    get_gamma (advanceN (set_gammas initState [1 / 10, 3 / 10, 1 / 2]) 3) = none := by
  rfl

/-- C5 amended: after set_gammas with the schedule 0.1, 0.3, 0.5 and k cursor
advances, the gamma coefficient actually used by forward (gamma_current) is
clamped to the last valid index, yielding 0.1, 0.3, 0.5, 0.5, ... and never
raising; get_gamma itself agrees for k at most 2 but raises (none) for every
k of 3 or more. -/
theorem C5_gamma_clamp_amended (st : ModelState) (k : ℕ) :
    gamma_current (advanceN (set_gammas st [1 / 10, 3 / 10, 1 / 2]) k)
      = some (if k = 0 then 1 / 10 else if k = 1 then 3 / 10 else 1 / 2) ∧
    get_gamma (advanceN (set_gammas st [1 / 10, 3 / 10, 1 / 2]) k)
      = (if k ≤ 2 then some (if k = 0 then 1 / 10 else if k = 1 then 3 / 10 else 1 / 2)
         else none) := by
  obtain ⟨hg, hi⟩ := advanceN_spec (set_gammas st [1 / 10, 3 / 10, 1 / 2]) k
  have hg' : (advanceN (set_gammas st [1 / 10, 3 / 10, 1 / 2]) k).gammas
      = [1 / 10, 3 / 10, 1 / 2] := hg
  have hi' : (advanceN (set_gammas st [1 / 10, 3 / 10, 1 / 2]) k).gamma_idx = k := by
    rw [hi]; simp [set_gammas]
  constructor
  · unfold gamma_current
    rw [hg', hi']
    match k with
    | 0 => rfl
    | 1 => rfl
    | 2 => rfl
    | k + 3 =>
      rw [if_pos (by simp only [List.length_cons, List.length_nil]; omega)]
      simp
  · unfold get_gamma
    rw [hg', hi']
    match k with
    | 0 => rfl
    | 1 => rfl
    | 2 => rfl
    | k + 3 =>
      rw [if_neg (by omega)]
      simp [List.get?]

/-- C9: calling span_mask, mlm_mask, or a forward pass with mask_inputs set,
before add_vocab_size has configured the vocabulary, fails fast with the
configuration-state error whose message names the required setup call
add_vocab_size (the final conjunct exhibits the name inside the message). -/
theorem C9_vocab_config_error (mt : ℤ) (inputs : ℕ → ℕ → ℤ) (d : Draws) (md : MlmDraws)
    (b n gi : ℕ) (gs : List ℚ) (hS hE dg : Bool) (qa mlm : ℚ) :
    span_mask none mt inputs d b n = Except.error vocabErrorMessage ∧
    mlm_mask none mt inputs md = Except.error vocabErrorMessage ∧
    forward { vocab_size := none, mask_token := mt, gamma_idx := gi, gammas := gs }
        hS hE true dg qa mlm = Except.error vocabErrorMessage ∧
    vocabErrorMessage
      = "AuxMLMModel must have vocabulary size added via " ++ "add_vocab_size" ++
          "() before training occurs" := by
  refine ⟨by simp [span_mask], by simp [mlm_mask], ?_, rfl⟩
  simp [forward]

/-- C1: for every input batch and every random draw, after span_mask every
position holding a protected token id (CLS, SEP or PAD) is in neither the
masked-index grid nor the randomized-index grid, its input token is unchanged,
and its label equals the ignore sentinel -100. -/
theorem C1_protected_positions (v : ℕ) (mt : ℤ) (inputs : ℕ → ℕ → ℤ) (d : Draws)
    (b n r p : ℕ) (out : MaskOut) (hr : r < b) (hp : p < n)
    (hs : specialToken (inputs r p) = true)
    (hok : span_mask (some v) mt inputs d b n = Except.ok out) :
    masked_index (inputs r) (d.geo r) (d.sr r) (d.mb r) n (max_nspans d.geo b n) p = false ∧
    random_index (inputs r) (d.geo r) (d.sr r) (d.mb r) (d.rb r) n (max_nspans d.geo b n) p
      = false ∧
    out.inputs r p = inputs r p ∧ out.labels r p = -100 := by
  have hout : out = span_mask_body mt inputs d b n := by
    simp [span_mask] at hok
    exact hok.symm
  subst hout
  refine ⟨by simp [masked_index, hs], by simp [random_index, hs], ?_, ?_⟩
  · simp [span_mask_body, inputAt, random_index, masked_index, hs]
  · simp [span_mask_body, labelAt, random_index, masked_index, hs]

/-- C1 witness: a concrete all-protected batch of one sequence of length 2;
position 0 is covered by a retained masked span, yet both index grids are
zero there, the input token is unchanged and the label is the sentinel. -/
theorem C1_protected_positions_witness :
    masked_index (exProtInputs 0) (exZeroDraws.geo 0) (exZeroDraws.sr 0) (exZeroDraws.mb 0)
        2 (max_nspans exZeroDraws.geo 1 2) 0 = false ∧
    random_index (exProtInputs 0) (exZeroDraws.geo 0) (exZeroDraws.sr 0) (exZeroDraws.mb 0)
        (exZeroDraws.rb 0) 2 (max_nspans exZeroDraws.geo 1 2) 0 = false ∧
    (span_mask_body (-100) exProtInputs exZeroDraws 1 2).inputs 0 0 = exProtInputs 0 0 ∧
    (span_mask_body (-100) exProtInputs exZeroDraws 1 2).labels 0 0 = -100 :=
  C1_protected_positions 30 (-100) exProtInputs exZeroDraws 1 2 0 0
    (span_mask_body (-100) exProtInputs exZeroDraws 1 2)
    (by decide) (by decide) (by decide) rfl

/-- C2: for every input batch and every random draw, at every position where
the input token returned by span_mask differs from the pre-masking original
token, the returned label equals the pre-masking original token id. -/
theorem C2_changed_token_label (v : ℕ) (mt : ℤ) (inputs : ℕ → ℕ → ℤ) (d : Draws)
    (b n r p : ℕ) (out : MaskOut) (hr : r < b) (hp : p < n)
    (hok : span_mask (some v) mt inputs d b n = Except.ok out)
    (hne : out.inputs r p ≠ inputs r p) :
    out.labels r p = inputs r p := by
  have hout : out = span_mask_body mt inputs d b n := by
    simp [span_mask] at hok
    exact hok.symm
  subst hout
  simp only [span_mask_body] at hne ⊢
  by_cases h1 : random_index (inputs r) (d.geo r) (d.sr r) (d.mb r) (d.rb r) n
      (max_nspans d.geo b n) p = true
  · simp [labelAt, h1]
  · by_cases h2 : masked_index (inputs r) (d.geo r) (d.sr r) (d.mb r) n
        (max_nspans d.geo b n) p = true
    · simp [labelAt, h1, h2]
    · exact absurd (by simp [inputAt, h1, h2]) hne

/-- C2 witness: in the concrete batch, position 2 of row 0 lies in a retained
masked span, its token 7 is rewritten to the mask token -100, and the label
there is the original token 7. -/
theorem C2_changed_token_label_witness :
    (span_mask_body (-100) exInputs exDraws 1 4).labels 0 2 = exInputs 0 2 :=
  C2_changed_token_label 1000 (-100) exInputs exDraws 1 4 0 2
    (span_mask_body (-100) exInputs exDraws 1 4)
    (by decide) (by decide) rfl (by decide)

/-- C3 counterexample: in the concrete batch, position 0 of row 0 holds the
unprotected token 5 and is covered by no selected span (the retained spans
cover position 2 only), yet span_mask rewrites it (to the random token 999)
and its label is 5 rather than the ignore sentinel: the scatter loop writes
the sentinel index 0 for every slot whose policy selector is 0 or whose
cursor has passed the span end, so position 0 is spuriously marked whenever
it is not protected. -/
theorem C3_counterexample :
    specialToken (exInputs 0 0) = false ∧
    covered (exDraws.geo 0) (exDraws.sr 0) 4 (max_nspans exDraws.geo 1 4) 0 = false ∧
    span_mask (some 1000) (-100) exInputs exDraws 1 4
      = Except.ok (span_mask_body (-100) exInputs exDraws 1 4) ∧
    (span_mask_body (-100) exInputs exDraws 1 4).inputs 0 0 ≠ exInputs 0 0 ∧
    (span_mask_body (-100) exInputs exDraws 1 4).labels 0 0 ≠ -100 :=
  ⟨by decide, by decide, rfl, by decide, by decide⟩

/-- A position of index at least 1 that is covered by no selected span
receives no scatter write for any span selector: every nonzero scatter index
lies inside the span of its slot. -/
theorem scatterHit_false_of_not_covered (sel : ℕ → Bool) (geo : ℕ → ℕ) (sr : ℕ → ℚ)
    (n k p : ℕ) (h1 : 1 ≤ p) (hc : covered geo sr n k p = false) :
    scatterHit sel geo sr n k p = false := by
  by_contra h
  rw [Bool.not_eq_false] at h
  simp only [scatterHit, List.any_eq_true, List.mem_range, beq_iff_eq] at h
  obtain ⟨i, _, s, hs, heq⟩ := h
  by_cases hsel : sel s = true
  · rw [if_pos hsel, mul_one] at heq
    have htok : start_idx geo sr n s + i < end_idx geo sr n s ∧
        p = start_idx geo sr n s + i := by
      unfold token_index at heq
      by_cases hin : start_idx geo sr n s + i < end_idx geo sr n s
      · rw [if_pos hin] at heq
        exact ⟨hin, heq.symm⟩
      · rw [if_neg hin] at heq
        omega
    have hkept : keptLen geo n s ≠ 0 := by
      intro h0
      have hst : start_idx geo sr n s = 0 := by simp [start_idx, h0]
      have hend : end_idx geo sr n s = 0 := by simp [end_idx, hst, h0]
      omega
    have : covered geo sr n k p = true := by
      simp only [covered, List.any_eq_true, List.mem_range, Bool.and_eq_true,
        decide_eq_true_eq]
      exact ⟨s, hs, ⟨hkept, by omega⟩, by omega⟩
    rw [hc] at this
    exact Bool.false_ne_true this
  · rw [if_neg hsel, mul_zero] at heq
    omega

/-- C3 amended: for every input batch and every random draw, every
non-protected position of index at least 1 that is covered by no selected
span is left with its input token unchanged by span_mask and receives the
ignore sentinel -100 as its label.  (Position 0 must be excluded: the
vectorized scatter writes its sentinel index 0 whenever a slot's policy
selector is 0 or its cursor has passed the span end, so an unprotected
position 0 can be rewritten without being covered by any span, as
C3_counterexample shows.) -/
theorem C3_unselected_positions_amended (v : ℕ) (mt : ℤ) (inputs : ℕ → ℕ → ℤ) (d : Draws)
    (b n r p : ℕ) (out : MaskOut) (hr : r < b) (hp : p < n) (h1 : 1 ≤ p)
    (hs : specialToken (inputs r p) = false)
    (hc : covered (d.geo r) (d.sr r) n (max_nspans d.geo b n) p = false)
    (hok : span_mask (some v) mt inputs d b n = Except.ok out) :
    out.inputs r p = inputs r p ∧ out.labels r p = -100 := by
  have hout : out = span_mask_body mt inputs d b n := by
    simp [span_mask] at hok
    exact hok.symm
  subst hout
  have hm : masked_index (inputs r) (d.geo r) (d.sr r) (d.mb r) n (max_nspans d.geo b n) p
      = false := by
    simp [masked_index,
      scatterHit_false_of_not_covered (masked_span (d.mb r)) (d.geo r) (d.sr r) n
        (max_nspans d.geo b n) p h1 hc]
  have hrd : random_index (inputs r) (d.geo r) (d.sr r) (d.mb r) (d.rb r) n
      (max_nspans d.geo b n) p = false := by
    simp [random_index,
      scatterHit_false_of_not_covered (random_span (d.mb r) (d.rb r)) (d.geo r) (d.sr r) n
        (max_nspans d.geo b n) p h1 hc]
  exact ⟨by simp [span_mask_body, inputAt, hm, hrd],
    by simp [span_mask_body, labelAt, hm, hrd]⟩

/-- C3 amended witness: in the concrete batch, position 1 of row 0 holds the
unprotected token 6 and is covered by no selected span; its input token is
unchanged and its label is the ignore sentinel. -/
theorem C3_unselected_positions_witness :
    (span_mask_body (-100) exInputs exDraws 1 4).inputs 0 1 = exInputs 0 1 ∧
    (span_mask_body (-100) exInputs exDraws 1 4).labels 0 1 = -100 :=
  C3_unselected_positions_amended 1000 (-100) exInputs exDraws 1 4 0 1
    (span_mask_body (-100) exInputs exDraws 1 4)
    (by decide) (by decide) (by decide) (by decide) (by decide) rfl

/-- A nonempty gamma schedule always yields a coefficient: the clamped read in
forward never fails. -/
theorem gamma_current_of_ne_nil (st : ModelState) (h : st.gammas ≠ []) :
    ∃ g, gamma_current st = some g := by
  unfold gamma_current
  by_cases hlt : st.gammas.length - 1 < st.gamma_idx
  · rw [if_pos hlt]
    have hsome : st.gammas.getLast?.isSome := by
      cases hG : st.gammas with
      | nil => exact absurd hG h
      | cons a l => simp [List.getLast?_isSome]
    exact ⟨st.gammas.getLast?.get hsome, (Option.some_get hsome).symm⟩
  · rw [if_neg hlt]
    have hx : st.gamma_idx < st.gammas.length := by
      have : st.gammas.length ≠ 0 := by
        intro h0
        exact h (List.length_eq_zero.mp h0)
      omega
    exact ⟨st.gammas.get ⟨st.gamma_idx, hx⟩, List.get?_eq_get hx⟩

/-- C6: the forward pass prepends a loss slot, and it carries an actual loss
only when at least one of gold QA positions or mask_inputs holds; with
mask_inputs false and no gold positions the call does not crash and the loss
slot holds the no-loss indicator 0 (the QA loss is absent and the MLM term is
the constant zero, so the total degenerates to gamma times 0). -/
theorem C6_no_loss_indicator (st : ModelState) (dg : Bool) (qa mlm : ℚ)
    (h : st.gammas ≠ []) :
    forward st false false false dg qa mlm
      = Except.ok (some 0, if dg then advance_gamma st else st) := by
  obtain ⟨g, hg⟩ := gamma_current_of_ne_nil st h
  simp [forward, hg]

/-- C6 witness: the freshly constructed model state, with no gold positions
and mask_inputs false, returns a tuple whose loss slot is the indicator 0
without raising. -/
theorem C6_no_loss_indicator_witness :
    initState.gammas ≠ [] ∧
    forward initState false false false false 0 0 = Except.ok (some 0, initState) :=
  ⟨by simp [initState], C6_no_loss_indicator initState false 0 0 (by simp [initState])⟩

/-- C7: whenever the forward pass computes a loss, the total equals
qa_loss + gamma_current * mlm_loss when both gold QA positions were supplied,
and gamma_current * mlm_loss alone when they were not (where the MLM term is
the cross-entropy value when mask_inputs is set and 0 otherwise). -/
theorem C7_total_loss_formula (st : ModelState) (v : ℕ) (g qa mlm : ℚ) (m dg : Bool)
    (hv : st.vocab_size = some v) (hg : gamma_current st = some g) :
    forward st true true m dg qa mlm
      = Except.ok (some (qa + g * (if m then mlm else 0)),
          if dg then advance_gamma st else st) ∧
    forward st false false m dg qa mlm
      = Except.ok (some (g * (if m then mlm else 0)),
          if dg then advance_gamma st else st) := by
  constructor <;> simp [forward, hv, hg]

/-- C7 witness: with gold positions supplied, mask_inputs true and current
gamma 0.5, the total loss is qa_loss + 0.5 * mlm_loss (here 2 + 0.5 * 4 = 4);
without gold positions it is 0.5 * 4 = 2. -/
theorem C7_total_loss_formula_witness :
    forward (ModelState.mk (some 1000) (-100) 0 [1 / 2]) true true true false 2 4
      = Except.ok (some (2 + 1 / 2 * (4 : ℚ)), ModelState.mk (some 1000) (-100) 0 [1 / 2]) ∧
    forward (ModelState.mk (some 1000) (-100) 0 [1 / 2]) false false true false 2 4
      = Except.ok (some (1 / 2 * (4 : ℚ)), ModelState.mk (some 1000) (-100) 0 [1 / 2]) :=
  C7_total_loss_formula (ModelState.mk (some 1000) (-100) 0 [1 / 2]) 1000 (1 / 2) 2 4
    true false rfl rfl

/-- C10: the alternative single-token strategy mlm_mask also never perturbs
protected tokens: at every position holding a CLS, SEP or PAD id the selection
probability is zeroed, so the Bernoulli selection can never fire there, the
input token is unchanged and the label is the ignore sentinel -100. -/
theorem C10_mlm_protected_tokens (v : ℕ) (mt : ℤ) (inputs : ℕ → ℕ → ℤ) (md : MlmDraws)
    (r p : ℕ) (out : MaskOut)
    (hu : 0 ≤ md.sel r p)
    (hs : specialToken (inputs r p) = true)
    (hok : mlm_mask (some v) mt inputs md = Except.ok out) :
    mlmProb (inputs r p) = 0 ∧
    mlmMasked (inputs r p) (md.sel r p) = false ∧
    out.inputs r p = inputs r p ∧ out.labels r p = -100 := by
  have hprob : mlmProb (inputs r p) = 0 := by simp [mlmProb, hs]
  have hmask : mlmMasked (inputs r p) (md.sel r p) = false := by
    simp only [mlmMasked, hprob, bern, decide_eq_false_iff_not]
    exact not_lt.mpr hu
  have hout : out = mlm_mask_body mt inputs md := by
    simp [mlm_mask] at hok
    exact hok.symm
  subst hout
  refine ⟨hprob, hmask, ?_, ?_⟩
  · simp [mlm_mask_body, mlmRandom, mlmReplaced, hmask]
  · simp [mlm_mask_body, hmask]

/-- C10 witness: an all-padding batch with selection draw 0.5 everywhere; the
zeroed probability keeps every position unselected, unchanged and labelled
with the sentinel. -/
theorem C10_mlm_protected_tokens_witness :
    mlmProb (exPadInputs 0 0) = 0 ∧
    mlmMasked (exPadInputs 0 0) (exMlmDraws.sel 0 0) = false ∧
    (mlm_mask_body (-100) exPadInputs exMlmDraws).inputs 0 0 = exPadInputs 0 0 ∧
    (mlm_mask_body (-100) exPadInputs exMlmDraws).labels 0 0 = -100 :=
  C10_mlm_protected_tokens 1000 (-100) exPadInputs exMlmDraws 0 0
    (mlm_mask_body (-100) exPadInputs exMlmDraws)
    (by decide) (by decide) rfl

end

end RobustQA
